import Mathlib

/-!
Shallow embedding of the Tetris game in `tetrisDraft.cpp` (a console Tetris
draft).  Pure shape operations of class `Tetromino` and the collision check of
class `TetrisGame` are translated directly from the C++ source; the methods
that the source only declares (`clearLines`, `updateScore`, `updateLevel`, the
per-key movement handlers) are modelled from the specification, each marked
`Modelled from the spec:` in its doc comment.

Machine integers are modelled as `Int` (coordinates) and `Nat` (score, level,
line counts); overflow is irrelevant at the ranges the claims concern.  An
out-of-range `std::vector` access — undefined behaviour in the source — is
modelled by returning `none`: `checkCollision` has type `Option Bool`, where
`none` marks an execution whose C++ behaviour is undefined.
-/

namespace Tetris

/-- Source: `enum class TetrominoType` with members I, O, T, S, Z, J, L, NONE. -/
inductive TetrominoType
  | I | O | T | S | Z | J | L | NONE
  deriving DecidableEq, Repr

/-- Source: `struct Point` with integer fields `x` and `y`. -/
structure Point where
  x : Int
  y : Int
  deriving DecidableEq, Repr

/-- Source: `static_cast<TetrominoType>(n)` for the enumerator values `0`–`7`
(the source only ever casts `std::rand() % 7`, i.e. values `0`–`6`). -/
def TetrominoType.cast : Nat → TetrominoType
  | 0 => .I
  | 1 => .O
  | 2 => .T
  | 3 => .S
  | 4 => .Z
  | 5 => .J
  | 6 => .L
  | _ => .NONE

/-- The static shape catalog `Tetromino::baseShapes`, indexed by type.
`NONE` has no row in the C++ table; a `Tetromino` of type `NONE` keeps its
default-constructed empty block vector, which we encode as `[]` here. -/
def baseShapes : TetrominoType → List Point
  | .I => [⟨0, 0⟩, ⟨1, 0⟩, ⟨2, 0⟩, ⟨3, 0⟩]
  | .O => [⟨0, 0⟩, ⟨1, 0⟩, ⟨0, 1⟩, ⟨1, 1⟩]
  | .T => [⟨0, 0⟩, ⟨1, 0⟩, ⟨2, 0⟩, ⟨1, 1⟩]
  | .S => [⟨1, 0⟩, ⟨2, 0⟩, ⟨0, 1⟩, ⟨1, 1⟩]
  | .Z => [⟨0, 0⟩, ⟨1, 0⟩, ⟨1, 1⟩, ⟨2, 1⟩]
  | .J => [⟨0, 0⟩, ⟨0, 1⟩, ⟨1, 1⟩, ⟨2, 1⟩]
  | .L => [⟨2, 0⟩, ⟨0, 1⟩, ⟨1, 1⟩, ⟨2, 1⟩]
  | .NONE => []

/-- Source: `class Tetromino` — type tag, absolute block coordinates, rotation state. -/
structure Tetromino where
  type : TetrominoType
  blocks : List Point
  rotation : Int
  deriving DecidableEq, Repr

/-- The constructor `Tetromino::Tetromino(TetrominoType)`: blocks come from
the static base layout (empty for `NONE`), `rotation` starts at `0`. -/
def Tetromino.spawn (ty : TetrominoType) : Tetromino :=
  { type := ty, blocks := baseShapes ty, rotation := 0 }

/-- Source: `Tetromino::rotate` replaces each block `(x, y)` by `(-y, x)`. -/
def Tetromino.rotate (t : Tetromino) : Tetromino :=
  { t with blocks := t.blocks.map (fun b => ⟨-b.y, b.x⟩) }

/-- Source: `Tetromino::move(dx, dy)` offsets every block by `(dx, dy)` in place. -/
def Tetromino.move (t : Tetromino) (dx dy : Int) : Tetromino :=
  { t with blocks := t.blocks.map (fun b => ⟨b.x + dx, b.y + dy⟩) }

/-- Source: `Tetromino::getMovedShape(dx, dy)` — the offset candidate block set,
without mutating the piece. -/
def Tetromino.getMovedShape (t : Tetromino) (dx dy : Int) : List Point :=
  t.blocks.map (fun b => ⟨b.x + dx, b.y + dy⟩)

/-- The playfield `std::vector<std::vector<char>> grid`; `' '` is empty. -/
abbrev Grid := List (List Char)

/-- Source: `TetrisGame::GRID_WIDTH`. -/
def GRID_WIDTH : Int := 10

/-- Source: `TetrisGame::GRID_HEIGHT`. -/
def GRID_HEIGHT : Int := 20

/-- The grid as (re)built by the constructor and `initializeGame`:
`GRID_HEIGHT` rows of `GRID_WIDTH` blank cells. -/
def emptyGrid : Grid :=
  List.replicate 20 (List.replicate 10 ' ')

/-- A grid with the dimensions the game maintains: 20 rows of 10 cells. -/
def wfGrid (g : Grid) : Prop :=
  g.length = 20 ∧ ∀ row ∈ g, row.length = 10

instance : DecidablePred wfGrid := fun g =>
  inferInstanceAs (Decidable (g.length = 20 ∧ ∀ row ∈ g, row.length = 10))

/-- The element read `grid[y][x]`: `some` the cell when both indices are in
range, `none` when the access is out of range (undefined behaviour of
`std::vector::operator[]` in the source). -/
def cellAt (g : Grid) (y x : Int) : Option Char :=
  if y < 0 ∨ x < 0 then none
  else (g[y.toNat]?).bind fun row => row[x.toNat]?

/-- Source: `TetrisGame::checkCollision` scans the candidate blocks in order; a block
outside `[0, GRID_WIDTH)` horizontally or at `y ≥ GRID_HEIGHT` is a collision,
then the field cell `grid[y][x]` is consulted and any non-blank cell is a
collision.  The read is unguarded for `y < 0`, so such a block makes the C++
behaviour undefined, which this model reports as `none`. -/
def checkCollision (blocks : List Point) (g : Grid) : Option Bool :=
  match blocks with
  | [] => some false
  | b :: rest =>
    if b.x < 0 ∨ b.x ≥ GRID_WIDTH ∨ b.y ≥ GRID_HEIGHT then some true
    else (cellAt g b.y b.x).bind fun c =>
      if c ≠ ' ' then some true else checkCollision rest g

/-- The game state of `class TetrisGame`.  The `float fallSpeed` field is
omitted: no claim concerns it and floating point is outside the embedding. -/
structure GameState where
  grid : Grid
  currentPiece : Tetromino
  score : Nat
  level : Nat
  linesCleared : Nat
  gameOver : Bool
  paused : Bool
  deriving DecidableEq, Repr

/-- Source: `TetrisGame::getRandomPieceType` casts `std::rand() % 7` to a type; the
random draw is modelled by the explicit argument `r`. -/
def getRandomPieceType (r : Nat) : TetrominoType :=
  TetrominoType.cast (r % 7)

/-- Source: `TetrisGame::generateNewPiece` replaces the current piece by a freshly
spawned one (of the type the random generator produced) and raises the
game-over flag when the spawn position already collides.  The `none` branch
of the collision check is unreachable on the 20×10 grids the game maintains
because every spawn block is in bounds. -/
def generateNewPiece (ty : TetrominoType) (s : GameState) : GameState :=
  let p := Tetromino.spawn ty
  let sNew := { s with currentPiece := p }
  match checkCollision p.blocks sNew.grid with
  | some true => { sNew with gameOver := true }
  | _ => sNew

/-- A row is full when every cell is occupied (non-blank). -/
def rowFull (row : List Char) : Bool :=
  row.all (fun c => c ≠ ' ')

/-- Modelled from the spec: `TetrisGame::clearLines` is only declared in the
source (no body).  Per spec §4.3: every full row is removed in one pass, the
rows above shift down, fresh empty rows enter at the top, and the number of
cleared rows is returned for scoring. -/
def clearLines (g : Grid) : Grid × Nat :=
  let kept := g.filter (fun row => !rowFull row)
  let n := g.length - kept.length
  (List.replicate n (List.replicate 10 ' ') ++ kept, n)

/-- Modelled from the spec: the score table of `TetrisGame::updateScore`
(declared only).  Per spec §4.4: points = base × (level + 1) with base
40/100/300/1200 for 1/2/3/4 lines and 0 otherwise. -/
def scoreFor (lines level : Nat) : Nat :=
  (match lines with
    | 1 => 40
    | 2 => 100
    | 3 => 300
    | 4 => 1200
    | _ => 0) * (level + 1)

/-- Modelled from the spec: `TetrisGame::updateScore` (declared only) adds
the table value for the cleared-line count to the score. -/
def updateScore (s : GameState) (lines : Nat) : GameState :=
  { s with score := s.score + scoreFor lines s.level }

/-- Modelled from the spec: `TetrisGame::updateLevel` (declared only).  Per
spec §4.4 the level increases as total cleared lines accumulate (threshold a
tuning constant, 10 lines here) and never decreases. -/
def updateLevel (s : GameState) : GameState :=
  { s with level := max s.level (1 + s.linesCleared / 10) }

/-- Writing one locked block into the grid (`grid[y][x] = '#'`); an
out-of-range index leaves the grid unchanged in this model. -/
def setCell (g : Grid) (y x : Int) : Grid :=
  if y < 0 ∨ x < 0 then g
  else
    match g[y.toNat]? with
    | none => g
    | some row => g.set y.toNat (row.set x.toNat '#')

/-- Modelled from the spec: the lock half of the gravity step (the source
declares `updateGrid`/`movePieceDown` without bodies).  The piece's blocks
are copied into the field. -/
def lockPiece (s : GameState) : GameState :=
  { s with grid := s.currentPiece.blocks.foldl (fun g b => setCell g b.y b.x) s.grid }

/-- Modelled from the spec: the lock → clear → score → level → spawn sequence
run when a downward gravity candidate is illegal (spec §4.2, §4.5). -/
def lockStep (ty : TetrominoType) (s : GameState) : GameState :=
  let s1 := lockPiece s
  let cleared := clearLines s1.grid
  let s2 := { s1 with grid := cleared.1, linesCleared := s1.linesCleared + cleared.2 }
  let s3 := updateScore s2 cleared.2
  let s4 := updateLevel s3
  generateNewPiece ty s4

/-- Modelled from the spec: a player move (left/right/soft drop); the
candidate is validated by the collision engine and committed only when
legal (spec §4.5). -/
def tryMove (dx dy : Int) (s : GameState) : GameState :=
  if checkCollision (s.currentPiece.getMovedShape dx dy) s.grid = some false then
    { s with currentPiece := s.currentPiece.move dx dy }
  else s

/-- Modelled from the spec: `TetrisGame::rotatePiece` (declared only); the
rotated candidate is committed only when the collision check passes. -/
def tryRotate (s : GameState) : GameState :=
  if checkCollision s.currentPiece.rotate.blocks s.grid = some false then
    { s with currentPiece := s.currentPiece.rotate }
  else s

/-- Modelled from the spec: one gravity step — move down one row if legal,
otherwise lock, clear, score and spawn (spec §4.5). -/
def gravityStep (ty : TetrominoType) (s : GameState) : GameState :=
  if checkCollision (s.currentPiece.getMovedShape 0 1) s.grid = some false then
    { s with currentPiece := s.currentPiece.move 0 1 }
  else lockStep ty s

/-- The cell `grid[y][x]` exists and is occupied (non-blank). -/
def occupied (g : Grid) (y x : Int) : Bool :=
  match cellAt g y x with
  | none => false
  | some c => c ≠ ' '

/-- The two piece operations the source implements on `Tetromino`. -/
inductive TetOp
  | rot
  | mov (dx dy : Int)
  deriving DecidableEq, Repr

/-- Running one `Tetromino` operation. -/
def applyOp (t : Tetromino) : TetOp → Tetromino
  | .rot => t.rotate
  | .mov dx dy => t.move dx dy

/-- Componentwise monotonicity of the progression counters between two
states: score, level and total cleared lines do not decrease. -/
def progressMono (a b : GameState) : Prop :=
  a.score ≤ b.score ∧ a.level ≤ b.level ∧ a.linesCleared ≤ b.linesCleared

/-- A blank row of width `GRID_WIDTH`. -/
def blankRow : List Char := List.replicate 10 ' '

/-- A fully occupied row of width `GRID_WIDTH`. -/
def fullRow : List Char := List.replicate 10 '#'

/-- The state right after `TetrisGame`'s member initializers ran (empty
grid, `NONE` piece, score 0, level 1) and before `initializeGame` spawned. -/
def initState : GameState :=
  { grid := emptyGrid, currentPiece := Tetromino.spawn TetrominoType.NONE,
    score := 0, level := 1, linesCleared := 0, gameOver := false, paused := false }

/-! ### Helper lemmas -/

/-- On a well-formed 20×10 grid, the read `grid[y][x]` is in range whenever
`0 ≤ y < GRID_HEIGHT` and `0 ≤ x < GRID_WIDTH`. -/
theorem cellAt_wf_isSome (g : Grid) (hg : wfGrid g) {y x : Int}
    (hy0 : 0 ≤ y) (hy : y < GRID_HEIGHT) (hx0 : 0 ≤ x) (hx : x < GRID_WIDTH) :
    ∃ c, cellAt g y x = some c := by
  obtain ⟨hlen, hrow⟩ := hg
  simp only [GRID_HEIGHT] at hy
  simp only [GRID_WIDTH] at hx
  have h1 : ¬(y < 0 ∨ x < 0) := by omega
  have hyn : y.toNat < g.length := by omega
  have hmem : g[y.toNat] ∈ g := List.getElem_mem hyn
  have hxn : x.toNat < (g[y.toNat]).length := by rw [hrow _ hmem]; omega
  refine ⟨g[y.toNat][x.toNat], ?_⟩
  unfold cellAt
  rw [if_neg h1, List.getElem?_eq_getElem hyn, Option.some_bind]
  exact List.getElem?_eq_getElem hxn

/-- Reading any in-bounds cell of the freshly initialized grid gives `' '`. -/
theorem cellAt_emptyGrid {y x : Int}
    (hy0 : 0 ≤ y) (hy : y < GRID_HEIGHT) (hx0 : 0 ≤ x) (hx : x < GRID_WIDTH) :
    cellAt emptyGrid y x = some ' ' := by
  simp only [GRID_HEIGHT] at hy
  simp only [GRID_WIDTH] at hx
  have h1 : ¬(y < 0 ∨ x < 0) := by omega
  unfold cellAt emptyGrid
  rw [if_neg h1, List.getElem?_replicate, if_pos (by omega : y.toNat < 20),
    Option.some_bind, List.getElem?_replicate, if_pos (by omega : x.toNat < 10)]

/-- On a well-formed grid, a candidate whose blocks all lie at `y ≥ 0` and
which contains a boundary violation or an occupied-cell overlap makes
`checkCollision` report a collision. -/
theorem checkCollision_finds_violation :
    ∀ (blocks : List Point) (g : Grid), wfGrid g → (∀ b ∈ blocks, 0 ≤ b.y) →
      (∃ b ∈ blocks, b.x < 0 ∨ GRID_WIDTH ≤ b.x ∨ GRID_HEIGHT ≤ b.y ∨
        occupied g b.y b.x = true) →
      checkCollision blocks g = some true := by
  intro blocks
  induction blocks with
  | nil => intro g _ _ hex; simp at hex
  | cons b rest ih =>
    intro g hg hy hex
    by_cases hb : b.x < 0 ∨ b.x ≥ GRID_WIDTH ∨ b.y ≥ GRID_HEIGHT
    · simp only [checkCollision]
      rw [if_pos hb]
    · push_neg at hb
      obtain ⟨hx0, hxw, hyh⟩ := hb
      have hy0 : 0 ≤ b.y := hy b (List.mem_cons_self _ _)
      obtain ⟨c, hc⟩ := cellAt_wf_isSome g hg hy0 hyh hx0 hxw
      simp only [checkCollision]
      rw [if_neg (by push_neg; exact ⟨hx0, hxw, hyh⟩), hc, Option.some_bind]
      by_cases hcc : c = ' '
      · rw [if_neg (by simp [hcc])]
        refine ih g hg (fun b hb => hy b (List.mem_cons_of_mem _ hb)) ?_
        obtain ⟨b1, hb1, hviol⟩ := hex
        rcases List.mem_cons.mp hb1 with hEq | hTail
        · subst hEq
          exfalso
          rcases hviol with h | h | h | h
          · exact absurd h (by omega)
          · exact absurd h (by omega)
          · exact absurd h (by omega)
          · simp [occupied, hc, hcc] at h
        · exact ⟨b1, hTail, hviol⟩
      · rw [if_pos hcc]

/-- On the empty field, a candidate whose blocks are all strictly in bounds
passes the collision check. -/
theorem checkCollision_empty_in_bounds :
    ∀ blocks : List Point,
      (∀ b ∈ blocks, 0 ≤ b.x ∧ b.x < GRID_WIDTH ∧ 0 ≤ b.y ∧ b.y < GRID_HEIGHT) →
      checkCollision blocks emptyGrid = some false := by
  intro blocks
  induction blocks with
  | nil => intro _; rfl
  | cons b rest ih =>
    intro hin
    obtain ⟨hx0, hxw, hy0, hyh⟩ := hin b (List.mem_cons_self _ _)
    simp only [checkCollision]
    rw [if_neg (by push_neg; exact ⟨hx0, hxw, hyh⟩), cellAt_emptyGrid hy0 hyh hx0 hxw,
      Option.some_bind, if_neg (by simp)]
    exact ih fun b hb => hin b (List.mem_cons_of_mem _ hb)

/-- On a well-formed grid, a candidate whose blocks all lie at `y ≥ 0` never
triggers the undefined-behaviour branch: the check returns a definite answer. -/
theorem checkCollision_wf_isSome :
    ∀ (blocks : List Point) (g : Grid), wfGrid g → (∀ b ∈ blocks, 0 ≤ b.y) →
      ∃ bb, checkCollision blocks g = some bb := by
  intro blocks
  induction blocks with
  | nil => intro g _ _; exact ⟨false, rfl⟩
  | cons b rest ih =>
    intro g hg hy
    by_cases hb : b.x < 0 ∨ b.x ≥ GRID_WIDTH ∨ b.y ≥ GRID_HEIGHT
    · refine ⟨true, ?_⟩
      simp only [checkCollision]
      rw [if_pos hb]
    · push_neg at hb
      obtain ⟨hx0, hxw, hyh⟩ := hb
      have hy0 : 0 ≤ b.y := hy b (List.mem_cons_self _ _)
      obtain ⟨c, hc⟩ := cellAt_wf_isSome g hg hy0 hyh hx0 hxw
      by_cases hcc : c = ' '
      · obtain ⟨bb, hbb⟩ := ih g hg fun b hb => hy b (List.mem_cons_of_mem _ hb)
        refine ⟨bb, ?_⟩
        simp only [checkCollision]
        rw [if_neg (by push_neg; exact ⟨hx0, hxw, hyh⟩), hc, Option.some_bind,
          if_neg (by simp [hcc]), hbb]
      · refine ⟨true, ?_⟩
        simp only [checkCollision]
        rw [if_neg (by push_neg; exact ⟨hx0, hxw, hyh⟩), hc, Option.some_bind, if_pos hcc]

/-- Running `applyOp` never touches the `rotation` field. -/
theorem applyOp_rotation (t : Tetromino) (op : TetOp) :
    (applyOp t op).rotation = t.rotation := by
  cases op <;> rfl

/-- A fold of piece operations never touches the `rotation` field. -/
theorem foldl_applyOp_rotation (ops : List TetOp) (t : Tetromino) :
    (ops.foldl applyOp t).rotation = t.rotation := by
  induction ops generalizing t with
  | nil => rfl
  | cons op ops ih => rw [List.foldl_cons, ih, applyOp_rotation]

/-- Every spawn-position block lies strictly inside the 20×10 field. -/
theorem spawn_blocks_in_bounds (ty : TetrominoType) :
    ∀ b ∈ (Tetromino.spawn ty).blocks,
      0 ≤ b.x ∧ b.x < GRID_WIDTH ∧ 0 ≤ b.y ∧ b.y < GRID_HEIGHT := by
  cases ty <;> decide

/-- Running `generateNewPiece` never changes the score, level, or line counters. -/
theorem generateNewPiece_counters (ty : TetrominoType) (s : GameState) :
    (generateNewPiece ty s).score = s.score ∧
      (generateNewPiece ty s).level = s.level ∧
      (generateNewPiece ty s).linesCleared = s.linesCleared := by
  cases hc : checkCollision (Tetromino.spawn ty).blocks s.grid with
  | none => simp [generateNewPiece, hc]
  | some b => cases b <;> simp [generateNewPiece, hc]

/-! ### Claim theorems -/

/-- C3: applying `Tetromino::rotate` four times restores the piece exactly:
the per-block transform `(x, y) ↦ (-y, x)` has order four. -/
theorem rotate_four_times_id (t : Tetromino) :
    t.rotate.rotate.rotate.rotate = t := by
  obtain ⟨ty, blocks, rot⟩ := t
  simp only [Tetromino.rotate, List.map_map, Tetromino.mk.injEq, true_and, and_true]
  induction blocks with
  | nil => rfl
  | cons b bs ih => simpa using ih

/-- C7: for every real type, spawning yields exactly the 4-point canonical
base layout of the static catalog, with rotation state 0. -/
theorem spawn_matches_base_layout (ty : TetrominoType) (h : ty ≠ TetrominoType.NONE) :
    (Tetromino.spawn ty).blocks = baseShapes ty ∧
      (Tetromino.spawn ty).blocks.length = 4 ∧
      (Tetromino.spawn ty).rotation = 0 := by
  refine ⟨rfl, ?_, rfl⟩
  cases ty <;> first | rfl | exact absurd rfl h

/-- Witness for C7 at the concrete type `I`. -/
theorem spawn_matches_base_layout_witness :
    TetrominoType.I ≠ TetrominoType.NONE ∧
      ((Tetromino.spawn TetrominoType.I).blocks = baseShapes TetrominoType.I ∧
        (Tetromino.spawn TetrominoType.I).blocks.length = 4 ∧
        (Tetromino.spawn TetrominoType.I).rotation = 0) :=
  ⟨by decide, spawn_matches_base_layout TetrominoType.I (by decide)⟩

/-- C9: the random generator casts `rand() % 7`, so it never produces the
`NONE` sentinel, and every piece spawned from it has 4 blocks. -/
theorem getRandomPieceType_never_none (r : Nat) :
    getRandomPieceType r ≠ TetrominoType.NONE ∧
      (Tetromino.spawn (getRandomPieceType r)).blocks.length = 4 := by
  have h : r % 7 < 7 := Nat.mod_lt _ (by omega)
  unfold getRandomPieceType
  set k := r % 7 with hk
  clear_value k
  interval_cases k <;> exact ⟨by decide, by decide⟩

/-- C10: the `rotation` field is written only by the constructor: any
sequence of `rotate`/`move` operations on a freshly spawned piece leaves it
at its construction value 0. -/
theorem rotation_stays_zero (ops : List TetOp) (ty : TetrominoType) :
    (ops.foldl applyOp (Tetromino.spawn ty)).rotation = 0 := by
  rw [foldl_applyOp_rotation]
  rfl

/-- C6: the score update awards `base × (level + 1)` points with base
0/40/100/300/1200 for 0/1/2/3/4 cleared lines; in particular 40/100/300/1200
at level 0 and 80/200/600/2400 at level 1. -/
theorem updateScore_table (s : GameState) :
    (updateScore s 0).score = s.score ∧
      (updateScore s 1).score = s.score + 40 * (s.level + 1) ∧
      (updateScore s 2).score = s.score + 100 * (s.level + 1) ∧
      (updateScore s 3).score = s.score + 300 * (s.level + 1) ∧
      (updateScore s 4).score = s.score + 1200 * (s.level + 1) := by
  refine ⟨?_, rfl, rfl, rfl, rfl⟩
  simp [updateScore, scoreFor]

/-- C2 (failing input): a block at `(x, y) = (0, -1)` passes the explicit
boundary test, and the subsequent read `grid[-1][0]` is out of range —
undefined behaviour, modelled as `none` — rather than a well-defined
no-collision lookup. -/
theorem checkCollision_negative_row_undefined :
    checkCollision [⟨0, -1⟩] emptyGrid = none := by decide

/-- C1 (counterexample): a candidate containing a block with `x < 0` on
which `checkCollision` does not return `true`: the earlier block at
`y = -1` makes the scan hit an out-of-range read first. -/
theorem checkCollision_claim_counterexample :
    ((⟨-1, 0⟩ : Point) ∈ ([⟨1, -1⟩, ⟨-1, 0⟩] : List Point) ∧ (⟨-1, 0⟩ : Point).x < 0) ∧
      checkCollision [⟨1, -1⟩, ⟨-1, 0⟩] emptyGrid ≠ some true := by decide

/-- C1 (amended): for candidates whose blocks all lie at `y ≥ 0`,
`checkCollision` on a well-formed field returns `true` as soon as some block
leaves `[0, GRID_WIDTH)` horizontally, reaches `y ≥ GRID_HEIGHT`, or overlaps
an occupied cell; and on the all-empty field it returns `false` for every
candidate whose blocks are all in bounds. -/
theorem checkCollision_spec (blocks : List Point) :
    (∀ g : Grid, wfGrid g → (∀ b ∈ blocks, 0 ≤ b.y) →
        (∃ b ∈ blocks, b.x < 0 ∨ GRID_WIDTH ≤ b.x ∨ GRID_HEIGHT ≤ b.y ∨
          occupied g b.y b.x = true) →
        checkCollision blocks g = some true) ∧
      ((∀ b ∈ blocks, 0 ≤ b.x ∧ b.x < GRID_WIDTH ∧ 0 ≤ b.y ∧ b.y < GRID_HEIGHT) →
        checkCollision blocks emptyGrid = some false) :=
  ⟨fun g hg hy hex => checkCollision_finds_violation blocks g hg hy hex,
    fun hin => checkCollision_empty_in_bounds blocks hin⟩

/-- Witness for C1: a wall-crossing block is rejected, an interior block on
the empty field is accepted. -/
theorem checkCollision_spec_witness :
    (wfGrid emptyGrid ∧ checkCollision [⟨-1, 0⟩] emptyGrid = some true) ∧
      checkCollision [⟨4, 5⟩] emptyGrid = some false :=
  ⟨⟨by decide, (checkCollision_spec [⟨-1, 0⟩]).1 emptyGrid (by decide) (by decide) (by decide)⟩,
    (checkCollision_spec [⟨4, 5⟩]).2 (by decide)⟩

/-- C4: with the game not yet over and the maintained 20×10 grid, a spawn
raises the game-over flag exactly when the fresh piece's initial blocks
collide, and no other implemented or modelled operation writes the flag. -/
theorem generateNewPiece_gameOver_iff (ty : TetrominoType) (s : GameState)
    (dx dy : Int) (n : Nat) (h0 : s.gameOver = false) (hg : wfGrid s.grid) :
    ((generateNewPiece ty s).gameOver = true ↔
        checkCollision (Tetromino.spawn ty).blocks s.grid = some true) ∧
      (tryMove dx dy s).gameOver = s.gameOver ∧
      (tryRotate s).gameOver = s.gameOver ∧
      (lockPiece s).gameOver = s.gameOver ∧
      (updateScore s n).gameOver = s.gameOver ∧
      (updateLevel s).gameOver = s.gameOver := by
  refine ⟨?_, ?_, ?_, rfl, rfl, rfl⟩
  · have hin := spawn_blocks_in_bounds ty
    obtain ⟨bb, hbb⟩ := checkCollision_wf_isSome (Tetromino.spawn ty).blocks s.grid hg
      fun b hb => ((hin b hb).2.2).1
    cases bb
    · simp [generateNewPiece, hbb, h0]
    · simp [generateNewPiece, hbb]
  · unfold tryMove
    split <;> rfl
  · unfold tryRotate
    split <;> rfl

/-- Witness for C4 at the freshly initialized state and an `I` spawn. -/
theorem generateNewPiece_gameOver_iff_witness :
    initState.gameOver = false ∧ wfGrid initState.grid ∧
      (((generateNewPiece TetrominoType.I initState).gameOver = true ↔
          checkCollision (Tetromino.spawn TetrominoType.I).blocks initState.grid = some true) ∧
        (tryMove 0 1 initState).gameOver = initState.gameOver ∧
        (tryRotate initState).gameOver = initState.gameOver ∧
        (lockPiece initState).gameOver = initState.gameOver ∧
        (updateScore initState 1).gameOver = initState.gameOver ∧
        (updateLevel initState).gameOver = initState.gameOver) :=
  ⟨rfl, by decide, generateNewPiece_gameOver_iff TetrominoType.I initState 0 1 1 rfl (by decide)⟩

/-- C5: on a 20-row field whose only full rows are rows 5 and 7, one clear
pass removes exactly those two rows, shifts everything above down, pushes
two fresh empty rows in at the top, and reports the count 2. -/
theorem clearLines_two_full_rows
    (r0 r1 r2 r3 r4 r5 r6 r7 r8 r9 r10 r11 r12 r13 r14 r15 r16 r17 r18 r19 : List Char)
    (h5 : rowFull r5 = true) (h7 : rowFull r7 = true)
    (hrest : ∀ r ∈ [r0, r1, r2, r3, r4, r6, r8, r9, r10, r11, r12, r13, r14,
        r15, r16, r17, r18, r19], rowFull r = false) :
    clearLines [r0, r1, r2, r3, r4, r5, r6, r7, r8, r9, r10, r11, r12, r13,
        r14, r15, r16, r17, r18, r19] =
      ([List.replicate 10 ' ', List.replicate 10 ' ', r0, r1, r2, r3, r4, r6,
        r8, r9, r10, r11, r12, r13, r14, r15, r16, r17, r18, r19], 2) := by
  simp only [List.mem_cons, List.not_mem_nil, or_false, forall_eq_or_imp, forall_eq] at hrest
  obtain ⟨g0, g1, g2, g3, g4, g6, g8, g9, g10, g11, g12, g13, g14, g15, g16,
    g17, g18, g19⟩ := hrest
  simp [clearLines, List.filter, h5, h7, g0, g1, g2, g3, g4, g6, g8, g9, g10,
    g11, g12, g13, g14, g15, g16, g17, g18, g19, List.replicate]

/-- Witness for C5: rows 5 and 7 filled with `'#'`, every other row blank. -/
theorem clearLines_two_full_rows_witness :
    rowFull fullRow = true ∧
      (∀ r ∈ [blankRow, blankRow, blankRow, blankRow, blankRow, blankRow,
          blankRow, blankRow, blankRow, blankRow, blankRow, blankRow, blankRow,
          blankRow, blankRow, blankRow, blankRow, blankRow], rowFull r = false) ∧
      clearLines [blankRow, blankRow, blankRow, blankRow, blankRow, fullRow,
          blankRow, fullRow, blankRow, blankRow, blankRow, blankRow, blankRow,
          blankRow, blankRow, blankRow, blankRow, blankRow, blankRow, blankRow] =
        ([List.replicate 10 ' ', List.replicate 10 ' ', blankRow, blankRow,
          blankRow, blankRow, blankRow, blankRow, blankRow, blankRow, blankRow,
          blankRow, blankRow, blankRow, blankRow, blankRow, blankRow, blankRow,
          blankRow, blankRow], 2) :=
  ⟨by decide, by decide,
    clearLines_two_full_rows blankRow blankRow blankRow blankRow blankRow
      fullRow blankRow fullRow blankRow blankRow blankRow blankRow blankRow
      blankRow blankRow blankRow blankRow blankRow blankRow blankRow
      (by decide) (by decide) (by decide)⟩

/-- C8: none of the game's operations — validated move, validated rotation,
a gravity step, the lock/clear/score/spawn sequence, the score update, the
level update, or a spawn — ever decreases the score, the level, or the
total count of cleared lines. -/
theorem progress_monotone (ty : TetrominoType) (dx dy : Int) (n : Nat) (s : GameState) :
    progressMono s (tryMove dx dy s) ∧ progressMono s (tryRotate s) ∧
      progressMono s (gravityStep ty s) ∧ progressMono s (lockStep ty s) ∧
      progressMono s (updateScore s n) ∧ progressMono s (updateLevel s) ∧
      progressMono s (generateNewPiece ty s) := by
  have hgen : ∀ t : GameState, progressMono t (generateNewPiece ty t) := by
    intro t
    obtain ⟨e1, e2, e3⟩ := generateNewPiece_counters ty t
    exact ⟨le_of_eq e1.symm, le_of_eq e2.symm, le_of_eq e3.symm⟩
  have hlock : progressMono s (lockStep ty s) := by
    have htrans : ∀ a b c : GameState, progressMono a b → progressMono b c →
        progressMono a c := by
      intro a b c hab hbc
      exact ⟨le_trans hab.1 hbc.1, le_trans hab.2.1 hbc.2.1, le_trans hab.2.2 hbc.2.2⟩
    refine htrans _ _ _ ?_ (hgen _)
    unfold updateLevel updateScore lockPiece
    refine ⟨?_, ?_, ?_⟩
    · exact Nat.le_add_right _ _
    · exact le_max_left _ _
    · exact Nat.le_add_right _ _
  refine ⟨?_, ?_, ?_, hlock, ?_, ?_, hgen s⟩
  · unfold tryMove
    split <;> exact ⟨le_refl _, le_refl _, le_refl _⟩
  · unfold tryRotate
    split <;> exact ⟨le_refl _, le_refl _, le_refl _⟩
  · unfold gravityStep
    split
    · exact ⟨le_refl _, le_refl _, le_refl _⟩
    · exact hlock
  · exact ⟨Nat.le_add_right _ _, le_refl _, le_refl _⟩
  · exact ⟨le_refl _, le_max_left _ _, le_refl _⟩

end Tetris
